import Mathlib

/-!
# Verification of the osjs-cli configuration composer and scaffolding filter

Shallow embedding of `src/webpack.js` (`createWebpack`) and
`src/tasks/scaffold.js` (`filterInput`) from the osjs-cli repository,
with theorems settling the frozen claims about them.

Modelling conventions:
* `fs.realpathSync` is passed in as an oracle `resolve : String → Option String`;
  `none` models the exception thrown for an unresolvable directory.
* `path.resolve(base, sub)` is modelled by `pathResolve` for the only shapes
  that occur in the source: an absolute `base` joined with a relative `sub`.
* The regular expressions used as webpack rule tests are modelled as data:
  a `test` is a disjunction of path suffixes (all source tests have the form
  `/\.(a|b|...)$/`), and `include`/`exclude` are disjunctions of substrings
  (the source uses `/typeface/` and `/(node_modules|bower_components)/`).
* `deepmerge` is modelled field-by-field on the concrete option shape the
  source merges: scalar fields are override-wins, array fields are
  default-then-override concatenation, and the nested `html`/`babel`/`entry`
  objects are merged recursively, matching deepmerge's defaults.
* JavaScript `string | false` (the `devtool` field) is the inductive
  `DevtoolVal`; JavaScript `string | null` (the `html.template` field) is
  `Option String` with `none` for `null`; an absent field of the overrides
  object is the outer `none` of an `Option`.
-/

/-- Suffix test on strings, computed on the character lists (so that the
kernel can evaluate it on concrete inputs). -/
def strEndsWith (s pat : String) : Bool :=
  pat.data.isSuffixOf s.data

/-- Substring test: does `s` contain `pat` as a contiguous substring?
Models a JavaScript regex match of a literal (or literal-disjunction) pattern. -/
def containsSub (s pat : String) : Bool :=
  (List.range (s.data.length + 1)).any (fun i => pat.data.isPrefixOf (s.data.drop i))

/-- Model of `path.resolve(base, sub)` for an absolute `base` and a relative
`sub`, the only combination the source uses. -/
def pathResolve (base sub : String) : String :=
  base ++ "/" ++ sub

/-- Model of `path.dirname(__dirname)` in `src/webpack.js`: the installation
directory of the tool itself.  Its concrete value is irrelevant to every
claim; only the shape `pathResolve cliRoot "node_modules"` matters. -/
def cliRoot : String := "/osjs-cli"

/-- JavaScript value of the `devtool` field: a string or literal `false`. -/
inductive DevtoolVal where
  | str (s : String)
  | fls
  deriving DecidableEq, Repr

/-- A webpack loader configuration (the `use` part of a rule), as data.
Covers exactly the loaders `src/webpack.js` constructs. -/
inductive UseSpec where
  /-- `file-loader`, with an optional `name` template option. -/
  | file (nameTemplate : Option String)
  /-- `ExtractTextPlugin.extract` chain: style-loader fallback, css-loader and
  sass-loader configured with `minimize`, `sourceMap` and `includePaths`. -/
  | styleChain (minimize sourceMap : Bool) (includePaths : List String)
  /-- `babel-loader` with the merged babel options. -/
  | babelLoader (cacheDirectory : Bool) (presets plugins : List String)
  /-- An opaque user-supplied loader. -/
  | user (id : Nat)
  deriving DecidableEq, Repr

/-- A webpack module rule: a suffix-disjunction `test`, optional substring
`include`, substring-disjunction `exclude`, and a loader. -/
structure Rule where
  testSuffixes : List String
  includeSub : Option String := none
  excludeSubs : List String := []
  use : UseSpec
  deriving DecidableEq, Repr

/-- Does a rule apply to a path?  webpack applies a rule when its `test`
matches, its `include` (when given) matches, and its `exclude` does not. -/
def ruleMatches (r : Rule) (path : String) : Bool :=
  r.testSuffixes.any (fun suf => strEndsWith path suf)
    && (match r.includeSub with
        | none => true
        | some pat => containsSub path pat)
    && !(r.excludeSubs.any (fun pat => containsSub path pat))

/-- First-match-wins selection over an ordered rule list (the precedence
policy the spec assigns to the produced rule order). -/
def firstMatch (rules : List Rule) (path : String) : Option Rule :=
  rules.find? (fun r => ruleMatches r path)

/-- A webpack output plugin descriptor, as data.  Covers the plugins
`src/webpack.js` constructs plus opaque user plugins. -/
inductive Plugin where
  | extractText (filename : String)
  | copyWebpack (copy : List String)
  | htmlWebpack (template : String)
  | user (id : Nat)
  deriving DecidableEq, Repr

/-- The nested `babel` option object: scalar `cacheDirectory` plus the two
array fields `presets` and `plugins` (deepmerge concatenates the arrays). -/
structure BabelOverrides where
  cacheDirectory : Option Bool := none
  presets : List String := []
  plugins : List String := []
  deriving DecidableEq, Repr

/-- The nested `html` option object: `template` is `string | null`
(inner `Option`) and may be absent from an override (outer `Option`). -/
structure HtmlOverrides where
  template : Option (Option String) := none
  title : Option String := none
  deriving DecidableEq, Repr

/-- A (partial) options object of the shape `createWebpack` merges: scalar
fields are `Option`-valued (absent = `none`), array fields are lists
(absent = `[]`, which deepmerge treats identically for concatenation). -/
structure Overrides where
  mode : Option String := none
  context : Option String := none
  splitChunks : Option Bool := none
  runtimeChunk : Option Bool := none
  minimize : Option Bool := none
  sourceMap : Option Bool := none
  devtool : Option DevtoolVal := none
  exclude : Option (List String) := none
  outputPath : Option String := none
  html : HtmlOverrides := {}
  entry : List (String × String) := []
  plugins : List Plugin := []
  copy : List String := []
  rules : List Rule := []
  babel : Option BabelOverrides := none
  includePaths : List String := []
  deriving DecidableEq, Repr

/-- deepmerge on the nested `html` object: scalar fields, override wins. -/
def mergeHtml (d o : HtmlOverrides) : HtmlOverrides :=
  { template := o.template.orElse (fun _ => d.template)
    title := o.title.orElse (fun _ => d.title) }

/-- deepmerge on the nested `babel` object: scalar override-wins, arrays
concatenated default-then-override. -/
def mergeBabel (d o : BabelOverrides) : BabelOverrides :=
  { cacheDirectory := o.cacheDirectory.orElse (fun _ => d.cacheDirectory)
    presets := d.presets ++ o.presets
    plugins := d.plugins ++ o.plugins }

/-- deepmerge on the `entry` mapping: keys of the default keep their position
with the override value when both define them; new override keys follow. -/
def mergeEntry (d o : List (String × String)) : List (String × String) :=
  d.map (fun p => (p.1, ((o.lookup p.1).getD p.2)))
    ++ o.filter (fun q => !(d.any (fun p => p.1 == q.1)))

/-- Model of `merge(defaults, options)` (the `deepmerge` call in
`src/webpack.js`): scalar/object fields are override-wins, array fields are
default-then-override concatenation, nested objects merged recursively. -/
def mergeOverrides (d o : Overrides) : Overrides :=
  { mode := o.mode.orElse (fun _ => d.mode)
    context := o.context.orElse (fun _ => d.context)
    splitChunks := o.splitChunks.orElse (fun _ => d.splitChunks)
    runtimeChunk := o.runtimeChunk.orElse (fun _ => d.runtimeChunk)
    minimize := o.minimize.orElse (fun _ => d.minimize)
    sourceMap := o.sourceMap.orElse (fun _ => d.sourceMap)
    devtool := o.devtool.orElse (fun _ => d.devtool)
    exclude := o.exclude.orElse (fun _ => d.exclude)
    outputPath := o.outputPath.orElse (fun _ => d.outputPath)
    html := mergeHtml d.html o.html
    entry := mergeEntry d.entry o.entry
    plugins := d.plugins ++ o.plugins
    copy := d.copy ++ o.copy
    rules := d.rules ++ o.rules
    babel := match d.babel, o.babel with
      | some db, some ob => some (mergeBabel db ob)
      | some db, none => some db
      | none, ob => ob
    includePaths := d.includePaths ++ o.includePaths }

/-- The default object `createWebpack` merges the caller's options onto.
`realDir` is the resolved path, `dir` the original argument, `production`
the process-wide flag.  Note the source computes `outputPath` with
`path.resolve(dir, 'dist')` — the original `dir`, not `realDir`. -/
def defaultOptions (realDir dir : String) (production : Bool) : Overrides :=
  { mode := some "development"
    context := some realDir
    splitChunks := some false
    runtimeChunk := some false
    minimize := some production
    sourceMap := some production
    devtool := some (DevtoolVal.str "source-map")
    exclude := some ["node_modules", "bower_components"]
    outputPath := some (pathResolve dir "dist")
    html := { template := some none, title := some "OS.js" }
    entry := []
    plugins := []
    copy := []
    rules := []
    babel := some { cacheDirectory := some true
                    presets := ["@babel/preset-env"]
                    plugins := ["@babel/plugin-transform-runtime"] }
    includePaths := [] }

/-- Source step forcing `options.devtool = false` when the merged
`options.sourceMap` is falsy. -/
def applyDevtoolRule (o : Overrides) : Overrides :=
  if o.sourceMap.getD false then o else { o with devtool := some DevtoolVal.fls }

/-- JavaScript truthiness of the merged `html.template` value
(`string | null`): truthy iff a non-empty string. -/
def templateTruthy : Option String → Bool
  | none => false
  | some s => s != ""

/-- Source step pushing `new HtmlWebpackPlugin(options.html.template)` onto
`options.plugins` when the merged `options.html.template` is truthy. -/
def applyHtmlPlugin (o : Overrides) : Overrides :=
  if templateTruthy (o.html.template.getD none) then
    { o with plugins :=
        o.plugins ++ [Plugin.htmlWebpack ((o.html.template.getD none).getD "")] }
  else o

/-- The `optimization` block of the returned configuration. -/
structure Optimization where
  minimize : Bool
  splitChunks : Bool
  runtimeChunk : Bool
  deriving DecidableEq, Repr

/-- The `output` block of the returned configuration. -/
structure Output where
  path : String
  sourceMapFilename : String
  filename : String
  deriving DecidableEq, Repr

/-- The configuration object returned by `createWebpack`.  `moduleRules` is
the `module.rules` list and `resolveModules` the `resolve.modules` list. -/
structure Config where
  mode : String
  devtool : DevtoolVal
  context : String
  plugins : List Plugin
  entry : List (String × String)
  optimization : Optimization
  output : Output
  resolveModules : List String
  moduleRules : List Rule
  deriving DecidableEq, Repr

/-- The built-in image rule: `test: /\.(png|jpe?g|gif|webp)$/`, file-loader. -/
def imageRule : Rule :=
  { testSuffixes := [".png", ".jpg", ".jpeg", ".gif", ".webp"]
    use := UseSpec.file none }

/-- The built-in stylesheet rule: `test: /\.s?css$/`, extract-text chain
configured from the merged `minimize`, `sourceMap`, `includePaths`. -/
def cssRule (o : Overrides) : Rule :=
  { testSuffixes := [".css", ".scss"]
    use := UseSpec.styleChain (o.minimize.getD false) (o.sourceMap.getD false)
      o.includePaths }

/-- The built-in script rule: `test: /\.js$/`, `exclude: options.exclude`,
babel-loader with the merged babel options. -/
def jsRule (o : Overrides) : Rule :=
  { testSuffixes := [".js"]
    excludeSubs := o.exclude.getD []
    use := match o.babel with
      | some b => UseSpec.babelLoader (b.cacheDirectory.getD false) b.presets b.plugins
      | none => UseSpec.babelLoader false [] [] }

/-- The built-in font rule: `test: /\.(eot|svg|ttf|woff|woff2)$/`,
`include: /typeface/`, named-output file-loader. -/
def fontRule : Rule :=
  { testSuffixes := [".eot", ".svg", ".ttf", ".woff", ".woff2"]
    includeSub := some "typeface"
    use := UseSpec.file (some "fonts/[name].[ext]") }

/-- The built-in bare-svg rule: `test: /\.svg$/`, `exclude: /typeface/`. -/
def svgRule : Rule :=
  { testSuffixes := [".svg"]
    excludeSubs := ["typeface"]
    use := UseSpec.file none }

/-- The object literal `createWebpack` returns, assembled from the merged
(and devtool/html-adjusted) options together with the original `dir`
argument (used for `resolve.modules`). -/
def assembleConfig (dir : String) (o : Overrides) : Config :=
  { mode := o.mode.getD ""
    devtool := o.devtool.getD DevtoolVal.fls
    context := o.context.getD ""
    plugins := [Plugin.extractText "[name].css", Plugin.copyWebpack o.copy]
      ++ o.plugins
    entry := o.entry
    optimization :=
      { minimize := o.minimize.getD false
        splitChunks := o.splitChunks.getD false
        runtimeChunk := o.runtimeChunk.getD false }
    output :=
      { path := o.outputPath.getD ""
        sourceMapFilename := "[file].map"
        filename := "[name].js" }
    resolveModules :=
      ["node_modules", pathResolve dir "node_modules",
        pathResolve cliRoot "node_modules"]
    moduleRules := o.rules ++ [imageRule, cssRule o, jsRule o, fontRule, svgRule] }

/-- The options object after the three sequential source steps: the deepmerge
onto the defaults, the devtool forcing, and the conditional html push. -/
def composedOptions (realDir dir : String) (production : Bool)
    (options : Overrides) : Overrides :=
  applyHtmlPlugin (applyDevtoolRule
    (mergeOverrides (defaultOptions realDir dir production) options))

/-- Model of `createWebpack(dir, options)` from `src/webpack.js`.
`resolve` is the `fs.realpathSync` oracle (`none` models the thrown error),
`production` the process-wide flag.  Returns `none` exactly when path
resolution fails, mirroring the synchronous throw before any merging. -/
def createWebpack (resolve : String → Option String) (production : Bool)
    (dir : String) (options : Overrides) : Option Config :=
  (resolve dir).map (fun realDir =>
    assembleConfig dir (composedOptions realDir dir production options))

/-- Model of `filterInput` from `src/tasks/scaffold.js`:
`String(input).replace(/[^A-z0-9_]/g, '').trim()`.  The character class
`[A-z0-9_]` spans ASCII codes 65–122 — which includes not only the letters
but also the punctuation characters at codes 91–96 — plus the digits and
underscore (already inside A–z). -/
def jsClassAz09 (c : Char) : Bool :=
  (65 ≤ c.toNat && c.toNat ≤ 122) || (48 ≤ c.toNat && c.toNat ≤ 57) || c == '_'

/-- JavaScript `String.prototype.trim`: strip whitespace from both ends. -/
def trimChars (cs : List Char) : List Char :=
  ((cs.dropWhile Char.isWhitespace).reverse.dropWhile Char.isWhitespace).reverse

/-- The scaffolding identifier filter. -/
def filterInput (input : String) : String :=
  String.mk (trimChars (input.data.filter jsClassAz09))

/-- The character set the spec prescribes for scaffolding identifiers:
ASCII letters, digits, underscore. -/
def specIdentChar (c : Char) : Bool :=
  (65 ≤ c.toNat && c.toNat ≤ 90) || (97 ≤ c.toNat && c.toNat ≤ 122)
    || (48 ≤ c.toNat && c.toNat ≤ 57) || c == '_'

/-- Resolver fixture: every directory is already canonical (no symlinks). -/
def plainResolve : String → Option String := fun d => some d

/-- Resolver fixture: the directory `/proj` is a symlink whose canonical
path is `/real/proj`; everything else is unresolvable. -/
def symlinkedResolve : String → Option String :=
  fun d => if d = "/proj" then some "/real/proj" else none

/-- Resolver fixture: no directory resolves (missing base directory). -/
def failResolve : String → Option String := fun _ => none

/-- Addressable store of plugin arrays, modelling JavaScript array identity
for the one mutation in `createWebpack`: the `options.plugins.push` call.
An address is an index into the store. -/
structure PluginStore where
  arrays : List (List Plugin)
  deriving DecidableEq, Repr

/-- Read the array at an address (an out-of-range address reads as empty). -/
def PluginStore.get (s : PluginStore) (a : Nat) : List Plugin :=
  (s.arrays[a]?).getD []

/-- Allocate a fresh array, returning the new store and its address. -/
def PluginStore.alloc (s : PluginStore) (v : List Plugin) : PluginStore × Nat :=
  ({ arrays := s.arrays ++ [v] }, s.arrays.length)

/-- Overwrite the array at an address in place. -/
def PluginStore.setAt (s : PluginStore) (a : Nat) (v : List Plugin) : PluginStore :=
  { arrays := s.arrays.set a v }

/-- The plugins-array data flow of `createWebpack` with explicit array
identity: deepmerge computes the merged plugins list as
`defaultPlugins.concat(callerArray)` — `concat` allocates a fresh array
(the default is the empty literal) — and the subsequent
`options.plugins.push` writes to that fresh address only. Returns the
final store and the address held by the merged options object. -/
def pushHtmlPlugins (s : PluginStore) (callerPlugins : Nat)
    (template : Option String) : PluginStore × Nat :=
  let merged := [] ++ s.get callerPlugins
  let alloced := s.alloc merged
  if templateTruthy template then
    (alloced.1.setAt alloced.2
      (alloced.1.get alloced.2 ++ [Plugin.htmlWebpack (template.getD "")]),
      alloced.2)
  else alloced

@[simp] theorem applyDevtoolRule_outputPath (o : Overrides) :
    (applyDevtoolRule o).outputPath = o.outputPath := by
  unfold applyDevtoolRule; split <;> rfl

@[simp] theorem applyDevtoolRule_context (o : Overrides) :
    (applyDevtoolRule o).context = o.context := by
  unfold applyDevtoolRule; split <;> rfl

@[simp] theorem applyDevtoolRule_plugins (o : Overrides) :
    (applyDevtoolRule o).plugins = o.plugins := by
  unfold applyDevtoolRule; split <;> rfl

@[simp] theorem applyDevtoolRule_rules (o : Overrides) :
    (applyDevtoolRule o).rules = o.rules := by
  unfold applyDevtoolRule; split <;> rfl

@[simp] theorem applyDevtoolRule_html (o : Overrides) :
    (applyDevtoolRule o).html = o.html := by
  unfold applyDevtoolRule; split <;> rfl

@[simp] theorem applyDevtoolRule_copy (o : Overrides) :
    (applyDevtoolRule o).copy = o.copy := by
  unfold applyDevtoolRule; split <;> rfl

@[simp] theorem applyDevtoolRule_sourceMap (o : Overrides) :
    (applyDevtoolRule o).sourceMap = o.sourceMap := by
  unfold applyDevtoolRule; split <;> rfl

@[simp] theorem applyHtmlPlugin_outputPath (o : Overrides) :
    (applyHtmlPlugin o).outputPath = o.outputPath := by
  unfold applyHtmlPlugin; split <;> rfl

@[simp] theorem applyHtmlPlugin_context (o : Overrides) :
    (applyHtmlPlugin o).context = o.context := by
  unfold applyHtmlPlugin; split <;> rfl

@[simp] theorem applyHtmlPlugin_devtool (o : Overrides) :
    (applyHtmlPlugin o).devtool = o.devtool := by
  unfold applyHtmlPlugin; split <;> rfl

@[simp] theorem applyHtmlPlugin_rules (o : Overrides) :
    (applyHtmlPlugin o).rules = o.rules := by
  unfold applyHtmlPlugin; split <;> rfl

@[simp] theorem applyHtmlPlugin_copy (o : Overrides) :
    (applyHtmlPlugin o).copy = o.copy := by
  unfold applyHtmlPlugin; split <;> rfl

theorem applyHtmlPlugin_plugins (o : Overrides) :
    (applyHtmlPlugin o).plugins = o.plugins ++
      (if templateTruthy (o.html.template.getD none)
        then [Plugin.htmlWebpack ((o.html.template.getD none).getD "")]
        else []) := by
  unfold applyHtmlPlugin; split <;> simp_all

theorem applyDevtoolRule_devtool_of_false (o : Overrides)
    (h : o.sourceMap = some false) :
    (applyDevtoolRule o).devtool = some DevtoolVal.fls := by
  unfold applyDevtoolRule
  simp [h]

theorem find?_append_left {α} (p : α → Bool) (l1 l2 : List α)
    (h : (l1.find? p).isSome) : (l1 ++ l2).find? p = l1.find? p := by
  induction l1 with
  | nil => simp [List.find?] at h
  | cons a t ih =>
    by_cases hp : p a = true
    · simp [List.find?, hp]
    · have hpf : ¬ p a = true := hp
      rw [List.find?_cons_of_neg _ hpf] at h
      rw [List.cons_append, List.find?_cons_of_neg _ hpf,
        List.find?_cons_of_neg _ hpf]
      exact ih h

/-- Rules of the merged options: the defaults contribute no rules, and the
devtool/html adjustment steps leave the rule list untouched. -/
theorem composedOptions_rules (realDir dir : String) (production : Bool)
    (o : Overrides) :
    (composedOptions realDir dir production o).rules = o.rules := by
  simp [composedOptions, mergeOverrides, defaultOptions]

/-- C8: for every base directory the resolver cannot canonicalise,
createWebpack produces no configuration object at all, for every overrides
object (the failure precedes the merge and every assembly step). -/
theorem c8_unresolvable_dir_aborts (resolve : String → Option String)
    (production : Bool) (dir : String) (o : Overrides)
    (h : resolve dir = none) :
    createWebpack resolve production dir o = none := by
  unfold createWebpack
  rw [h]
  rfl

theorem c8_witness :
    createWebpack failResolve false "/missing" {} = none :=
  c8_unresolvable_dir_aborts failResolve false "/missing" {} rfl

/-- C2: whenever the merged sourceMap field is false, the returned
configuration's devtool is the literal false, whatever devtool value the
overrides supplied. -/
theorem c2_sourceMap_false_forces_devtool_false (resolve : String → Option String)
    (production : Bool) (dir : String) (o : Overrides) (r : String)
    (hres : resolve dir = some r)
    (hsm : (mergeOverrides (defaultOptions r dir production) o).sourceMap
      = some false) :
    (createWebpack resolve production dir o).map (fun c => c.devtool)
      = some DevtoolVal.fls := by
  unfold createWebpack composedOptions
  rw [hres]
  show some (assembleConfig dir _).devtool = _
  rw [show (assembleConfig dir (applyHtmlPlugin (applyDevtoolRule
      (mergeOverrides (defaultOptions r dir production) o)))).devtool
    = (applyHtmlPlugin (applyDevtoolRule
      (mergeOverrides (defaultOptions r dir production) o))).devtool.getD
        DevtoolVal.fls from rfl]
  rw [applyHtmlPlugin_devtool, applyDevtoolRule_devtool_of_false _ hsm]
  rfl

theorem c2_witness :
    (createWebpack plainResolve false "/proj"
      { sourceMap := some false, devtool := some (DevtoolVal.str "source-map") }).map
        (fun c => c.devtool) = some DevtoolVal.fls :=
  c2_sourceMap_false_forces_devtool_false plainResolve false "/proj"
    { sourceMap := some false, devtool := some (DevtoolVal.str "source-map") }
    "/proj" rfl rfl

/-- C5 counterexample: the claim quantifies over every overrides object, but
an override that sets context wins the merge, so the returned context is the
override value, not the resolved path of the base directory. -/
theorem c5_counterexample :
    ((createWebpack plainResolve false "/proj"
      { context := some "/elsewhere" }).map (fun c => c.context)
        = some "/elsewhere")
    ∧ plainResolve "/proj" = some "/proj"
    ∧ ("/elsewhere" : String) ≠ "/proj" := by
  refine ⟨by decide, rfl, by decide⟩

/-- C5 (amended): for every overrides object that does not set context, the
context field of the returned configuration equals the resolver's canonical
path for the base directory. -/
theorem c5_context_is_resolved_path (resolve : String → Option String)
    (production : Bool) (dir : String) (o : Overrides) (r : String)
    (hc : o.context = none) (hres : resolve dir = some r) :
    (createWebpack resolve production dir o).map (fun c => c.context)
      = some r := by
  unfold createWebpack composedOptions
  rw [hres]
  show some ((applyHtmlPlugin (applyDevtoolRule
    (mergeOverrides (defaultOptions r dir production) o))).context.getD "") = _
  rw [applyHtmlPlugin_context, applyDevtoolRule_context]
  simp [mergeOverrides, defaultOptions, hc, Option.orElse]

theorem c5_witness :
    (createWebpack symlinkedResolve false "/proj" {}).map (fun c => c.context)
      = some "/real/proj" :=
  c5_context_is_resolved_path symlinkedResolve false "/proj" {} "/real/proj"
    rfl rfl

/-- C1 counterexample: on a base directory that is a symlink, the defaulted
output path is computed from the original argument, not the resolved path, so
it differs from the canonical path joined with dist. -/
theorem c1_counterexample :
    ((createWebpack symlinkedResolve false "/proj" {}).map
      (fun c => c.output.path) = some "/proj/dist")
    ∧ symlinkedResolve "/proj" = some "/real/proj"
    ∧ ("/proj/dist" : String) ≠ pathResolve "/real/proj" "dist" := by
  refine ⟨by decide, rfl, by decide⟩

/-- C1 (amended): for every overrides object that does not set outputPath,
the returned output.path is the original base-directory argument joined with
dist (the source computes the default from dir, not from the resolved
realDir). -/
theorem c1_output_path_from_original_dir (resolve : String → Option String)
    (production : Bool) (dir : String) (o : Overrides) (r : String)
    (hout : o.outputPath = none) (hres : resolve dir = some r) :
    (createWebpack resolve production dir o).map (fun c => c.output.path)
      = some (pathResolve dir "dist") := by
  unfold createWebpack composedOptions
  rw [hres]
  show some ((applyHtmlPlugin (applyDevtoolRule
    (mergeOverrides (defaultOptions r dir production) o))).outputPath.getD "") = _
  rw [applyHtmlPlugin_outputPath, applyDevtoolRule_outputPath]
  simp [mergeOverrides, defaultOptions, hout, Option.orElse]

theorem c1_witness :
    (createWebpack symlinkedResolve false "/proj" {}).map
      (fun c => c.output.path) = some (pathResolve "/proj" "dist") :=
  c1_output_path_from_original_dir symlinkedResolve false "/proj" {}
    "/real/proj" rfl rfl

/-- Fixture: a user-supplied override rule whose extension also matches the
built-in image rule. -/
def pngUserRule : Rule :=
  { testSuffixes := [".png"], use := UseSpec.user 0 }

/-- C3: the produced module.rules list is the user-supplied rules in their
given order followed by the built-in image, stylesheet, script, font and
bare-svg rules in that fixed order, so under first-match-wins a path matched
by some override rule is selected from the override prefix. -/
theorem c3_override_rules_first (resolve : String → Option String)
    (production : Bool) (dir : String) (o : Overrides) (r path : String)
    (hres : resolve dir = some r)
    (hmatch : ∃ rule ∈ o.rules, ruleMatches rule path = true) :
    ((createWebpack resolve production dir o).map Config.moduleRules
      = some (o.rules ++ [imageRule, cssRule (composedOptions r dir production o),
          jsRule (composedOptions r dir production o), fontRule, svgRule]))
    ∧ ((createWebpack resolve production dir o).map
        (fun c => firstMatch c.moduleRules path)
      = some (firstMatch o.rules path))
    ∧ (firstMatch o.rules path).isSome = true := by
  have hrules := composedOptions_rules r dir production o
  have hsome : (firstMatch o.rules path).isSome = true := by
    rw [firstMatch, List.find?_isSome]
    obtain ⟨rule, hmem, hm⟩ := hmatch
    exact ⟨rule, hmem, hm⟩
  have hcfg : createWebpack resolve production dir o
      = some (assembleConfig dir (composedOptions r dir production o)) := by
    unfold createWebpack
    rw [hres]
    rfl
  refine ⟨?_, ?_, hsome⟩
  · rw [hcfg]
    show some ((composedOptions r dir production o).rules
      ++ [imageRule, cssRule (composedOptions r dir production o),
          jsRule (composedOptions r dir production o), fontRule, svgRule]) = _
    rw [hrules]
  · rw [hcfg]
    show some (firstMatch ((composedOptions r dir production o).rules
      ++ [imageRule, cssRule (composedOptions r dir production o),
          jsRule (composedOptions r dir production o), fontRule, svgRule]) path)
      = _
    rw [hrules, firstMatch, firstMatch]
    rw [firstMatch, List.find?_isSome] at hsome
    rw [find?_append_left _ _ _ (List.find?_isSome.mpr hsome)]

theorem c3_witness :
    ((createWebpack plainResolve false "/proj" { rules := [pngUserRule] }).map
        (fun c => firstMatch c.moduleRules "sprites/player.png")
      = some (firstMatch [pngUserRule] "sprites/player.png"))
    ∧ (firstMatch [pngUserRule] "sprites/player.png").isSome = true := by
  have h := c3_override_rules_first plainResolve false "/proj"
    { rules := [pngUserRule] } "/proj" "sprites/player.png" rfl
    ⟨pngUserRule, by decide, by decide⟩
  exact ⟨h.2.1, h.2.2⟩

/-- C4 counterexample: a merged html.template of the empty string is
non-null, yet the code's truthiness test skips the HTML-emission plugin, so
the plugin list does not end with it. -/
theorem c4_counterexample :
    ((createWebpack plainResolve false "/proj"
        { html := { template := some (some "") } }).map Config.plugins
      = some [Plugin.extractText "[name].css", Plugin.copyWebpack []])
    ∧ (mergeOverrides (defaultOptions "/proj" "/proj" false)
        { html := { template := some (some "") } }).html.template
      = some (some "")
    ∧ (some "" : Option String) ≠ none := by
  refine ⟨by decide, rfl, by decide⟩

/-- C4 (amended): the plugin list is the stylesheet-extraction plugin, the
asset-copy plugin configured from the merged copy field, the user-supplied
plugins in order, and — if and only if the merged html.template is truthy
(non-null and non-empty) — an HTML-emission plugin for that template, last. -/
theorem c4_plugin_order (resolve : String → Option String) (production : Bool)
    (dir : String) (o : Overrides) (r : String) (hres : resolve dir = some r) :
    (createWebpack resolve production dir o).map Config.plugins
      = some ([Plugin.extractText "[name].css",
          Plugin.copyWebpack
            (mergeOverrides (defaultOptions r dir production) o).copy]
        ++ (o.plugins
          ++ (if templateTruthy
                ((mergeOverrides
                  (defaultOptions r dir production) o).html.template.getD none)
              then [Plugin.htmlWebpack
                (((mergeOverrides
                  (defaultOptions r dir production) o).html.template.getD
                    none).getD "")]
              else []))) := by
  have hcfg : createWebpack resolve production dir o
      = some (assembleConfig dir (composedOptions r dir production o)) := by
    unfold createWebpack
    rw [hres]
    rfl
  rw [hcfg]
  show some ([Plugin.extractText "[name].css",
      Plugin.copyWebpack (composedOptions r dir production o).copy]
    ++ (composedOptions r dir production o).plugins) = _
  rw [show (composedOptions r dir production o).copy
    = (mergeOverrides (defaultOptions r dir production) o).copy by
      rw [composedOptions, applyHtmlPlugin_copy, applyDevtoolRule_copy]]
  rw [show (composedOptions r dir production o).plugins
    = o.plugins ++ (if templateTruthy
        ((mergeOverrides
          (defaultOptions r dir production) o).html.template.getD none)
      then [Plugin.htmlWebpack
        (((mergeOverrides
          (defaultOptions r dir production) o).html.template.getD none).getD "")]
      else []) from ?_]
  rw [composedOptions, applyHtmlPlugin_plugins, applyDevtoolRule_plugins,
    applyDevtoolRule_html]
  rw [show (mergeOverrides (defaultOptions r dir production) o).plugins
    = o.plugins by simp [mergeOverrides, defaultOptions]]

theorem c4_witness :
    (createWebpack plainResolve false "/proj"
      { html := { template := some (some "t.html") },
        plugins := [Plugin.user 7] }).map Config.plugins
      = some [Plugin.extractText "[name].css", Plugin.copyWebpack [],
          Plugin.user 7, Plugin.htmlWebpack "t.html"] := by
  have h := c4_plugin_order plainResolve false "/proj"
    { html := { template := some (some "t.html") },
      plugins := [Plugin.user 7] } "/proj" rfl
  rw [h]
  decide

/-- C6: on every path with the svg extension, the font rule and the bare-svg
rule are mutually exclusive, decided by the typeface path marker: with the
marker the font rule matches and the bare-svg rule does not; without it the
bare-svg rule matches and the font rule does not. -/
theorem c6_svg_font_disambiguation (path : String)
    (hsvg : strEndsWith path ".svg" = true) :
    (containsSub path "typeface" = true →
      ruleMatches fontRule path = true ∧ ruleMatches svgRule path = false)
    ∧ (containsSub path "typeface" = false →
      ruleMatches svgRule path = true ∧ ruleMatches fontRule path = false) := by
  constructor <;> intro h <;>
    simp [ruleMatches, fontRule, svgRule, hsvg, h]

theorem c6_witness :
    (ruleMatches fontRule "node_modules/typeface-roboto/fonts/Icon.svg" = true
      ∧ ruleMatches svgRule "node_modules/typeface-roboto/fonts/Icon.svg" = false)
    ∧ (ruleMatches svgRule "assets/icon.svg" = true
      ∧ ruleMatches fontRule "assets/icon.svg" = false) := by
  have h1 := c6_svg_font_disambiguation
    "node_modules/typeface-roboto/fonts/Icon.svg" (by decide)
  have h2 := c6_svg_font_disambiguation "assets/icon.svg" (by decide)
  exact ⟨h1.1 (by decide), h2.2 (by decide)⟩

/-- C7: the merge used by createWebpack is override-wins on scalar fields and
default-then-override concatenation (without deduplication) on array fields;
in particular the merged rules list has length equal to the sum of the two
rules lists' lengths. -/
theorem c7_merge_semantics (D O : Overrides) :
    ((mergeOverrides D O).rules.length = D.rules.length + O.rules.length)
    ∧ ((mergeOverrides D O).rules = D.rules ++ O.rules)
    ∧ (∀ v, O.mode = some v → (mergeOverrides D O).mode = some v)
    ∧ (∀ v, O.sourceMap = some v → (mergeOverrides D O).sourceMap = some v)
    ∧ (∀ v, O.outputPath = some v → (mergeOverrides D O).outputPath = some v)
    := by
  refine ⟨by simp [mergeOverrides], rfl, ?_, ?_, ?_⟩ <;>
    (intro v h; simp [mergeOverrides, h, Option.orElse])

theorem c7_witness :
    ((mergeOverrides { rules := [fontRule] }
      { rules := [svgRule], mode := some "production" }).rules.length = 2)
    ∧ ((mergeOverrides { rules := [fontRule] }
      { rules := [svgRule], mode := some "production" }).mode
        = some "production") := by
  have h := c7_merge_semantics { rules := [fontRule] }
    { rules := [svgRule], mode := some "production" }
  exact ⟨h.1.trans (by decide), h.2.2.1 "production" rfl⟩

/-- C9 (code bug): the filter keeps the bracket character, so its output is
not restricted to ASCII letters, digits and underscore — the regex class
spans the ASCII range from the uppercase letters to the lowercase letters,
which also contains the six punctuation characters between them. -/
theorem c9_filter_keeps_bracket :
    filterInput "foo[bar]" = "foo[bar]"
    ∧ ('[' ∈ (filterInput "foo[bar]").data)
    ∧ specIdentChar '[' = false
    ∧ jsClassAz09 '[' = true := by
  refine ⟨by decide, by decide, by decide, by decide⟩

/-- C10: the caller's plugins array is never mutated: the merge allocates a
fresh array for the merged options (deepmerge concatenates into a new array)
and the conditional html push writes only to that fresh address, which is
distinct from every valid caller address; the value written there agrees
with the pure model of the push step. -/
theorem c10_no_caller_mutation (s : PluginStore) (p : Nat) (tmpl : Option String)
    (hp : p < s.arrays.length) :
    ((pushHtmlPlugins s p tmpl).1.get p = s.get p)
    ∧ ((pushHtmlPlugins s p tmpl).2 ≠ p)
    ∧ ((pushHtmlPlugins s p tmpl).1.get (pushHtmlPlugins s p tmpl).2
      = (applyHtmlPlugin
          { plugins := s.get p, html := { template := some tmpl } }).plugins) := by
  have hnep : s.arrays.length ≠ p := (Nat.ne_of_lt hp).symm
  unfold pushHtmlPlugins PluginStore.alloc PluginStore.setAt PluginStore.get applyHtmlPlugin
  cases htb : templateTruthy tmpl with
  | true =>
    refine ⟨?_, hnep, ?_⟩
    · simp only [htb, if_true, List.nil_append]
      rw [List.getElem?_set_ne hnep, List.getElem?_append_left hp]
    · simp only [htb, if_true, List.nil_append, Option.getD_some]
      rw [List.getElem?_concat_length]
      rw [List.getElem?_set_eq_of_lt]
      · rfl
      · simp [Nat.lt_succ_self]
  | false =>
    refine ⟨?_, hnep, ?_⟩
    · simp only [htb, Bool.false_eq_true, if_false, List.nil_append]
      rw [List.getElem?_append_left hp]
    · simp only [htb, Bool.false_eq_true, if_false, List.nil_append,
        Option.getD_some]
      rw [List.getElem?_concat_length]
      rfl

theorem c10_witness :
    ((pushHtmlPlugins ⟨[[Plugin.user 1]]⟩ 0 (some "t.html")).1.get 0
      = PluginStore.get ⟨[[Plugin.user 1]]⟩ 0)
    ∧ (pushHtmlPlugins ⟨[[Plugin.user 1]]⟩ 0 (some "t.html")).2 ≠ 0 := by
  have h := c10_no_caller_mutation ⟨[[Plugin.user 1]]⟩ 0 (some "t.html")
    (by decide)
  exact ⟨h.1, h.2.1⟩
